import Mathlib

/-!
# Verification of the `nimbu` task-scheduling core

Shallow embedding of the `nimbu-core` crate and proofs about its task
lifecycle state machine, backoff calculator, scheduling actor and task
queue facades.

The crate contains two generations of the design:

* the task/state-machine layer in `src/task.rs` (`TaskStatus`,
  `RetryPolicy`, `Task` and its transition methods), embedded below under
  the same names;
* the converged scheduling-actor design in `src/task_queue/`
  (`queue.rs`, `scheduler.rs`, `backoff.rs`, `messages.rs`), which refers
  to a scheduler-generation task type (with an `attempts` counter, an
  optional retry policy carrying a `BackoffStrategy`, and methods
  `mark_retryable_failure` / `mark_permanent_failure` / `complete`) whose
  definition is not part of the sources; those missing pieces are
  modelled from the specification and are marked as such, everything
  else is translated from the source.

Machine integers: `u32` attempt counters are modelled as `Nat` with the
increment in `fail_retry` reduced modulo `2^32` (release-mode wrapping
semantics); Rust `Duration` values are modelled as `Nat` nanoseconds,
saturating at `durationMax` (the value of `Duration::MAX`).
Side-effecting `SystemTime::now()` calls are modelled by an explicit
`now` argument, and `&mut self` methods returning `Result<(), E>` are
modelled as functions returning the pair of the optional error and the
post-state (on an error the Rust methods return before any mutation, so
the post-state is the input).
-/

namespace Nimbu

/-- `TaskStatus` from `src/task.rs`. -/
inductive TaskStatus : Type
  | Pending : TaskStatus
  | Assigned : TaskStatus
  | Running : TaskStatus
  | Completed : TaskStatus
  | Failed (attempt : Nat) (error : String) : TaskStatus
  | FailedPermanent (error : String) : TaskStatus
deriving DecidableEq, Repr

/-- `RetryPolicy` from `src/task.rs`. -/
structure RetryPolicy : Type where
  max_retries : Nat
  backoff_ms : Nat
deriving DecidableEq, Repr

/-- `TaskTransitionError` from `src/task.rs`: `Illegal { from, to }` carries
the names of the two states, `RetryLimitedExceeded` is the retry-budget
error (the source spells it with the extra `ed`). -/
inductive TaskTransitionError : Type
  | Illegal (fromState : String) (toState : String) : TaskTransitionError
  | RetryLimitedExceeded : TaskTransitionError
deriving DecidableEq, Repr

/-- `TaskStatus::as_str` from `src/task.rs`. -/
def TaskStatus.as_str : TaskStatus → String
  | TaskStatus.Pending => "Pending"
  | TaskStatus.Assigned => "Assigned"
  | TaskStatus.Running => "Running"
  | TaskStatus.Completed => "Completed"
  | TaskStatus.Failed _ _ => "Failed"
  | TaskStatus.FailedPermanent _ => "FailedPermanent"

/-- `TaskStatus::mark_as_assigned` from `src/task.rs`. -/
def TaskStatus.mark_as_assigned : TaskStatus → Except TaskTransitionError TaskStatus
  | TaskStatus.Pending => Except.ok TaskStatus.Assigned
  | status => Except.error (TaskTransitionError.Illegal status.as_str "Assigned")

/-- `TaskStatus::mark_as_running` from `src/task.rs`. -/
def TaskStatus.mark_as_running : TaskStatus → Except TaskTransitionError TaskStatus
  | TaskStatus.Assigned => Except.ok TaskStatus.Running
  | status => Except.error (TaskTransitionError.Illegal status.as_str "Running")

/-- `TaskStatus::mark_as_completed` from `src/task.rs`. -/
def TaskStatus.mark_as_completed : TaskStatus → Except TaskTransitionError TaskStatus
  | TaskStatus.Running => Except.ok TaskStatus.Completed
  | status => Except.error (TaskTransitionError.Illegal status.as_str "Completed")

/-- `TaskStatus::mark_as_failed` from `src/task.rs`: only a `Running` task
may move to `Failed { attempt, error }`. -/
def TaskStatus.mark_as_failed (s : TaskStatus) (attempt : Nat) (error : String) :
    Except TaskTransitionError TaskStatus :=
  match s with
  | TaskStatus.Running => Except.ok (TaskStatus.Failed attempt error)
  | status => Except.error (TaskTransitionError.Illegal status.as_str "Failed")

/-- `TaskStatus::mark_as_failed_permanent` from `src/task.rs`. -/
def TaskStatus.mark_as_failed_permanent (s : TaskStatus) (error : String) :
    Except TaskTransitionError TaskStatus :=
  match s with
  | TaskStatus.Running => Except.ok (TaskStatus.FailedPermanent error)
  | TaskStatus.Failed _ _ => Except.ok (TaskStatus.FailedPermanent error)
  | status => Except.error (TaskTransitionError.Illegal status.as_str "FailedPermanent")

/-- `TaskStatus::is_terminal` from `src/task.rs`. -/
def TaskStatus.is_terminal : TaskStatus → Bool
  | TaskStatus.Completed => true
  | TaskStatus.FailedPermanent _ => true
  | _ => false

/-- `RetryPolicy::can_retry` from `src/task.rs`: `attempt < self.max_retries`. -/
def RetryPolicy.can_retry (p : RetryPolicy) (attempt : Nat) : Bool :=
  decide (attempt < p.max_retries)

/-- `Task` from `src/task.rs` (the payload bytes and the two identifier
fields are opaque to every transition; timestamps are `Nat`). -/
structure Task : Type where
  id : String
  job_id : String
  payload : List Nat
  status : TaskStatus
  retry_policy : RetryPolicy
  created_at : Nat
  updated_at : Nat
deriving DecidableEq, Repr

/-- `Task::assign` from `src/task.rs`. -/
def Task.assign (t : Task) (now : Nat) : Option TaskTransitionError × Task :=
  match t.status.mark_as_assigned with
  | Except.ok s => (none, { t with status := s, updated_at := now })
  | Except.error e => (some e, t)

/-- `Task::start` from `src/task.rs`. -/
def Task.start (t : Task) (now : Nat) : Option TaskTransitionError × Task :=
  match t.status.mark_as_running with
  | Except.ok s => (none, { t with status := s, updated_at := now })
  | Except.error e => (some e, t)

/-- `Task::complete` from `src/task.rs`. -/
def Task.complete (t : Task) (now : Nat) : Option TaskTransitionError × Task :=
  match t.status.mark_as_completed with
  | Except.ok s => (none, { t with status := s, updated_at := now })
  | Except.error e => (some e, t)

/-- The `match` at the top of `Task::fail_retry` in `src/task.rs`: the next
attempt count is `1` from `Running`, `attempt + 1` from `Failed` (a `u32`
addition, hence the reduction modulo `2^32`), and no value (the
`Illegal { to: "FailedRetry" }` early return) from any other status. -/
def fail_retry_attempt : TaskStatus → Option Nat
  | TaskStatus.Running => some 1
  | TaskStatus.Failed a _ => some ((a + 1) % 4294967296)
  | _ => none

/-- `Task::fail_retry` from `src/task.rs`: compute the next attempt count,
reject with `RetryLimitedExceeded` when it exceeds `max_retries`, then
delegate to `TaskStatus::mark_as_failed`. -/
def Task.fail_retry (t : Task) (error : String) (now : Nat) :
    Option TaskTransitionError × Task :=
  match fail_retry_attempt t.status with
  | none => (some (TaskTransitionError.Illegal t.status.as_str "FailedRetry"), t)
  | some attempt =>
    if attempt > t.retry_policy.max_retries then
      (some TaskTransitionError.RetryLimitedExceeded, t)
    else
      match t.status.mark_as_failed attempt error with
      | Except.ok s => (none, { t with status := s, updated_at := now })
      | Except.error e => (some e, t)

/-- `Task::fail_permanent` from `src/task.rs`. -/
def Task.fail_permanent (t : Task) (error : String) (now : Nat) :
    Option TaskTransitionError × Task :=
  match t.status.mark_as_failed_permanent error with
  | Except.ok s => (none, { t with status := s, updated_at := now })
  | Except.error e => (some e, t)

/-- The five lifecycle events of the §4.1 transition table of the specification:
assign, start, complete, retryable fail and fatal fail. -/
inductive TEvent : Type
  | assign : TEvent
  | start : TEvent
  | complete : TEvent
  | failR : TEvent
  | failP : TEvent
deriving DecidableEq, Repr

/-- Dispatch an event to the corresponding pure `TaskStatus` transition
function of `src/task.rs` (`mark_as_failed` takes the attempt count as an
argument at this level). -/
def statusApply (s : TaskStatus) (ev : TEvent) (attempt : Nat) (error : String) :
    Except TaskTransitionError TaskStatus :=
  match ev with
  | TEvent.assign => s.mark_as_assigned
  | TEvent.start => s.mark_as_running
  | TEvent.complete => s.mark_as_completed
  | TEvent.failR => s.mark_as_failed attempt error
  | TEvent.failP => s.mark_as_failed_permanent error

/-- Dispatch an event to the corresponding `Task` method of `src/task.rs`. -/
def taskApply (t : Task) (ev : TEvent) (error : String) (now : Nat) :
    Option TaskTransitionError × Task :=
  match ev with
  | TEvent.assign => t.assign now
  | TEvent.start => t.start now
  | TEvent.complete => t.complete now
  | TEvent.failR => t.fail_retry error now
  | TEvent.failP => t.fail_permanent error now

/-- The `to` name each `mark_as_*` function writes into its `Illegal` error. -/
def statusTarget : TEvent → String
  | TEvent.assign => "Assigned"
  | TEvent.start => "Running"
  | TEvent.complete => "Completed"
  | TEvent.failR => "Failed"
  | TEvent.failP => "FailedPermanent"

/-- The `to` name each `Task` method writes into its `Illegal` error
(`Task::fail_retry` uses `"FailedRetry"` in its own early return). -/
def taskTarget : TEvent → String
  | TEvent.failR => "FailedRetry"
  | TEvent.assign => "Assigned"
  | TEvent.start => "Running"
  | TEvent.complete => "Completed"
  | TEvent.failP => "FailedPermanent"

/-- The edge set of the §4.1 transition table of the specification, written
from the words of the spec (the retry-count guard on the `Failed → Failed` row is a
policy-level guard, so the row itself is an edge of the table). -/
def inTable : TaskStatus → TEvent → Bool
  | TaskStatus.Pending, TEvent.assign => true
  | TaskStatus.Assigned, TEvent.start => true
  | TaskStatus.Running, TEvent.complete => true
  | TaskStatus.Running, TEvent.failR => true
  | TaskStatus.Failed _ _, TEvent.failR => true
  | TaskStatus.Running, TEvent.failP => true
  | TaskStatus.Failed _ _, TEvent.failP => true
  | _, _ => false

/-! ## The scheduling-actor generation (`src/task_queue/`)

`backoff.rs`, `scheduler.rs`, `queue.rs` and `messages.rs` refer to a
scheduler-generation task type: `task.attempts`, `task.retry_policy`
(an `Option` of a policy with a `strategy : BackoffStrategy`), and methods
`mark_retryable_failure`, `mark_permanent_failure`, `complete`. That
definition of that type is not among the sources, so the type and those methods
are modelled from the specification; every function over them below
(`compute_backoff`, `handle_execution_event`, the `queue.rs` facade and
`scheduler_loop`) is translated from the source. -/

/-- The largest `u32` value: `u32::saturating_pow` saturates here. -/
def u32Max : Nat := 4294967295

/-- `Duration::MAX` in nanoseconds: `Duration::saturating_mul` saturates
here. The Rust `Duration` is `u64` seconds plus a sub-second nanosecond
part, so the maximum is `(2^64 - 1) * 10^9 + 999999999` nanoseconds. -/
def durationMax : Nat := 18446744073709551615 * 1000000000 + 999999999

/-- Modelled from the spec: `BackoffStrategy` (§3) — `Fixed(delay)` and
`Exponential { base, factor, max_delay }`; the `base`, `delay` and
`max_delay` fields are `Duration`s (`Nat` nanoseconds here), the `factor`
is the `u32` multiplier fed to `saturating_pow`/`saturating_mul` in
`src/task_queue/backoff.rs`. -/
inductive BackoffStrategy : Type
  | Fixed (delay : Nat) : BackoffStrategy
  | Exponential (base : Nat) (factor : Nat) (max_delay : Nat) : BackoffStrategy
deriving DecidableEq, Repr

/-- Modelled from the spec: the scheduler-generation retry policy —
`{ max_retries, strategy : BackoffStrategy }` (§3), with `can_retry` as in
`src/task.rs` (`attempt < max_retries`, the form `scheduler.rs` calls). -/
structure SRetryPolicy : Type where
  max_retries : Nat
  strategy : BackoffStrategy
deriving DecidableEq, Repr

/-- `can_retry` of the scheduler-generation policy: `attempt < max_retries`
as in `RetryPolicy::can_retry` of `src/task.rs`. -/
def SRetryPolicy.can_retry (p : SRetryPolicy) (attempt : Nat) : Bool :=
  decide (attempt < p.max_retries)

/-- Modelled from the spec: the scheduler-generation `Task` — the fields
`src/task_queue/backoff.rs` and `src/task_queue/scheduler.rs` read:
an identifier, a status, an `attempts` counter and an optional retry
policy (`task.retry_policy.as_ref()?`). -/
structure STask : Type where
  id : String
  status : TaskStatus
  attempts : Nat
  retry_policy : Option SRetryPolicy
deriving DecidableEq, Repr

/-- `u32::saturating_pow`: exact power clamped to `u32::MAX`. -/
def saturating_pow (factor attempts : Nat) : Nat :=
  min (factor ^ attempts) u32Max

/-- `Duration::saturating_mul`: exact product clamped to `Duration::MAX`. -/
def duration_saturating_mul (base exp : Nat) : Nat :=
  min (base * exp) durationMax

/-- `compute_backoff` from `src/task_queue/backoff.rs`: `None` without a
policy; `Fixed` returns the fixed delay; `Exponential` computes
`base.saturating_mul(factor.saturating_pow(attempts)).min(max_delay)`. -/
def compute_backoff (task : STask) : Option Nat :=
  match task.retry_policy with
  | none => none
  | some policy =>
    match policy.strategy with
    | BackoffStrategy.Fixed delay => some delay
    | BackoffStrategy.Exponential base factor max_delay =>
      let exp := saturating_pow factor task.attempts
      let delay := duration_saturating_mul base exp
      some (min delay max_delay)

/-- Modelled from the spec: scheduler-generation `Task::complete` — the
§4.1 `Running → Completed` transition as a whole-task method; its result
is discarded by `scheduler.rs` (`let _ = task.complete();`). -/
def STask.complete (t : STask) : Except TaskTransitionError STask :=
  match t.status.mark_as_completed with
  | Except.ok s => Except.ok { t with status := s }
  | Except.error e => Except.error e

/-- Modelled from the spec: scheduler-generation
`Task::mark_retryable_failure` — "On `RetryableFailure`, advance
`Failed{attempt}`" (§4.3): the attempt counter is incremented and the
status becomes `Failed` at the new count with the reported error. -/
def STask.mark_retryable_failure (t : STask) (error : String) : STask :=
  { t with attempts := t.attempts + 1,
           status := TaskStatus.Failed (t.attempts + 1) error }

/-- Modelled from the spec: scheduler-generation
`Task::mark_permanent_failure` — transition to `FailedPermanent{error}`
(§4.3, applied unconditionally by `scheduler.rs`). -/
def STask.mark_permanent_failure (t : STask) (error : String) : STask :=
  { t with status := TaskStatus.FailedPermanent error }

/-- `ExecutionEvent` from `src/task_queue/messages.rs`. -/
inductive ExecutionEvent : Type
  | Completed (task : STask) : ExecutionEvent
  | RetryableFailure (task : STask) (error : String) : ExecutionEvent
  | FatalFailure (task : STask) (error : String) : ExecutionEvent
deriving DecidableEq, Repr

/-- `SchedulerCommand` from `src/task_queue/messages.rs` (delays as `Nat`). -/
inductive SchedulerCommand : Type
  | Schedule (task : STask) (delay : Nat) : SchedulerCommand
  | ExecutionResult (event : ExecutionEvent) : SchedulerCommand
  | Shutdown : SchedulerCommand
deriving DecidableEq, Repr

/-- `handle_execution_event` from `src/task_queue/scheduler.rs`. The
`DelayQueue` is a list of `(task, delay)` entries; the function returns
the updated delay structure and, when the task reached a terminal outcome
and went out of scope, that dropped task (the source logs it). The source
returns no error in any branch. -/
def handle_execution_event (event : ExecutionEvent) (delay_queue : List (STask × Nat)) :
    List (STask × Nat) × Option STask :=
  match event with
  | ExecutionEvent.Completed task =>
    match task.complete with
    | Except.ok t2 => (delay_queue, some t2)
    | Except.error _ => (delay_queue, some task)
  | ExecutionEvent.RetryableFailure task error =>
    let task := task.mark_retryable_failure error
    match task.retry_policy with
    | some policy =>
      if policy.can_retry task.attempts then
        match compute_backoff task with
        | some delay => (delay_queue ++ [(task, delay)], none)
        | none => (delay_queue, some (task.mark_permanent_failure "retry limit exceeded"))
      else (delay_queue, some (task.mark_permanent_failure "retry limit exceeded"))
    | none => (delay_queue, some (task.mark_permanent_failure "retry limit exceeded"))
  | ExecutionEvent.FatalFailure task error =>
    (delay_queue, some (task.mark_permanent_failure error))

/-- State of the `TaskQueue` of `src/task_queue/queue.rs`: the bounded
ready channel (buffer plus capacity), the scheduler command channel
(buffer, its hard-coded capacity `1024`, and whether its receiver is
gone), and the advisory `len` counter. The ready receiver lives inside
the struct, so the ready channel cannot be observed closed by `send`. -/
structure TaskQueue : Type where
  ready : List STask
  capacity : Nat
  cmd : List SchedulerCommand
  cmd_capacity : Nat
  cmd_closed : Bool
  len : Nat
deriving DecidableEq, Repr

/-- `TaskQueue::new` from `src/task_queue/queue.rs`: empty ready channel of
the given capacity, empty scheduler command channel of capacity `1024`. -/
def TaskQueue.new (capacity : Nat) : TaskQueue :=
  { ready := [], capacity := capacity, cmd := [], cmd_capacity := 1024,
    cmd_closed := false, len := 0 }

/-- Outcome of a blocking bounded-channel send. -/
inductive SendOutcome : Type
  | ok : SendOutcome
  | suspended : SendOutcome
deriving DecidableEq, Repr

/-- `TaskQueue::enqueue` from `src/task_queue/queue.rs`: a blocking send
into the bounded ready channel (the channel appends to its FIFO buffer
when below capacity and suspends the caller otherwise), then `len += 1`. -/
def TaskQueue.enqueue (q : TaskQueue) (t : STask) : SendOutcome × TaskQueue :=
  if q.ready.length < q.capacity then
    (SendOutcome.ok, { q with ready := q.ready ++ [t], len := q.len + 1 })
  else
    (SendOutcome.suspended, q)

/-- `TaskQueue::enqueue_delayed` from `src/task_queue/queue.rs`:
`let _ = self.scheduler_tx.try_send(SchedulerCommand::Schedule { task, delay })`
— the command is appended to the scheduler command channel when it has a
receiver and free capacity; any `try_send` error is discarded, leaving
every part of the state unchanged. -/
def TaskQueue.enqueue_delayed (q : TaskQueue) (task : STask) (delay : Nat) : TaskQueue :=
  if q.cmd_closed = false ∧ q.cmd.length < q.cmd_capacity then
    { q with cmd := q.cmd ++ [SchedulerCommand.Schedule task delay] }
  else
    q

/-- `TaskQueue::dequeue` from `src/task_queue/queue.rs`: receive from the
ready channel (pop the FIFO head when the buffer is not empty), then
`len -= 1`; `none` when no task is obtained now. -/
def TaskQueue.dequeue (q : TaskQueue) : Option STask × TaskQueue :=
  match q.ready with
  | [] => (none, q)
  | t :: rest => (some t, { q with ready := rest, len := q.len - 1 })

/-- Enqueue a list of tasks in order through `TaskQueue::enqueue`,
returning `none` if any send fails to complete immediately. -/
def enqueue_list (q : TaskQueue) : List STask → Option TaskQueue
  | [] => some q
  | t :: ts =>
    match q.enqueue t with
    | (SendOutcome.ok, q2) => enqueue_list q2 ts
    | (SendOutcome.suspended, _) => none

/-- Call `TaskQueue::dequeue` `n` times, collecting the tasks returned. -/
def dequeue_list (q : TaskQueue) : Nat → List STask × TaskQueue
  | 0 => ([], q)
  | n + 1 =>
    match q.dequeue with
    | (none, q2) => ([], q2)
    | (some t, q2) =>
      let r := dequeue_list q2 n
      (t :: r.1, r.2)

/-- The two wake-up sources of the `tokio::select!` in `scheduler_loop`
(`src/task_queue/scheduler.rs`): a command arriving on `cmd_rx`, or the
earliest entry of the delay structure expiring. -/
inductive SchedEvent : Type
  | cmd (c : SchedulerCommand) : SchedEvent
  | expire : SchedEvent
deriving DecidableEq, Repr

/-- State of `scheduler_loop` from `src/task_queue/scheduler.rs`: the
delay structure it owns, the tasks it has delivered onto the ready
channel, and whether the loop has exited (`break`). -/
structure SchedState : Type where
  dq : List (STask × Nat)
  delivered : List STask
  stopped : Bool
deriving DecidableEq, Repr

/-- One iteration of `scheduler_loop` from `src/task_queue/scheduler.rs`:
an exited loop reacts to nothing; `Schedule` inserts into the delay
structure; `ExecutionResult` runs `handle_execution_event`; `Shutdown`
breaks the loop; an expiry removes the expired entry and sends its task
to the ready channel. -/
def sched_step (s : SchedState) (e : SchedEvent) : SchedState :=
  if s.stopped then s
  else
    match e with
    | SchedEvent.cmd (SchedulerCommand.Schedule t d) => { s with dq := s.dq ++ [(t, d)] }
    | SchedEvent.cmd (SchedulerCommand.ExecutionResult ev) =>
      { s with dq := (handle_execution_event ev s.dq).1 }
    | SchedEvent.cmd SchedulerCommand.Shutdown => { s with stopped := true }
    | SchedEvent.expire =>
      match s.dq with
      | [] => s
      | entry :: rest => { s with dq := rest, delivered := s.delivered ++ [entry.1] }

/-- Run `scheduler_loop` over a sequence of wake-up events. -/
def sched_run (s : SchedState) : List SchedEvent → SchedState
  | [] => s
  | e :: es => sched_run (sched_step s e) es

/-! ## The earlier facade (`src/task_queue.rs`)

`src/task_queue.rs` is the earlier `TaskQueue` with
`sender: Arc<Mutex<Option<mpsc::Sender<Task>>>>`. Its state is the
presence of the sender (taken by `shutdown`), whether the sender mutex is
currently held by an in-flight `enqueue`/`shutdown`/delay-expiry
delivery, and the bounded ready channel. The receiver lives inside the
struct, so `send`/`try_send` cannot observe a closed channel while the
queue exists. -/

/-- `QueueError` from `src/task_queue.rs`. -/
inductive QueueError : Type
  | Full : QueueError
  | Closed : QueueError
deriving DecidableEq, Repr

/-- State of the earlier `TaskQueue` of `src/task_queue.rs`. -/
structure OldTaskQueue : Type where
  sender : Bool
  sender_locked : Bool
  ready : List Task
  capacity : Nat
  len : Nat
deriving DecidableEq, Repr

/-- `TaskQueue::new` from `src/task_queue.rs`: sender present and
unlocked, empty ready channel of the given capacity. -/
def OldTaskQueue.new (capacity : Nat) : OldTaskQueue :=
  { sender := true, sender_locked := false, ready := [], capacity := capacity, len := 0 }

/-- Whether shutdown has begun: `shutdown` is the only code that takes the
sender out of the `Mutex<Option<_>>`. -/
def OldTaskQueue.shutdown_begun (q : OldTaskQueue) : Bool :=
  !q.sender

/-- `TaskQueue::try_enqueue` from `src/task_queue.rs`:
`self.sender.try_lock().ok().and_then(|s| s.clone())` yields no sender
both when the mutex is currently held and when the sender has been taken
by `shutdown`, and either case is mapped to `Closed`; otherwise
`try_send` appends when the channel is below capacity and reports `Full`
when it is at capacity. -/
def OldTaskQueue.try_enqueue (q : OldTaskQueue) (t : Task) :
    Option QueueError × OldTaskQueue :=
  if q.sender_locked || !q.sender then
    (some QueueError.Closed, q)
  else if q.ready.length < q.capacity then
    (none, { q with ready := q.ready ++ [t], len := q.len + 1 })
  else
    (some QueueError.Full, q)

/-- Outcome of the blocking `enqueue` of `src/task_queue.rs`: completed,
suspended on a full channel (backpressure), or failed with an error. -/
inductive EnqOutcome : Type
  | ok : EnqOutcome
  | suspended : EnqOutcome
  | err (e : QueueError) : EnqOutcome
deriving DecidableEq, Repr

/-- `TaskQueue::enqueue` from `src/task_queue.rs`: awaits the sender
mutex, fails with `Closed` when the sender has been taken by `shutdown`,
otherwise performs a blocking bounded send (append below capacity,
suspend at capacity) and then `len += 1`. -/
def OldTaskQueue.enqueue (q : OldTaskQueue) (t : Task) : EnqOutcome × OldTaskQueue :=
  if !q.sender then
    (EnqOutcome.err QueueError.Closed, q)
  else if q.ready.length < q.capacity then
    (EnqOutcome.ok, { q with ready := q.ready ++ [t], len := q.len + 1 })
  else
    (EnqOutcome.suspended, q)

/-- Outcome of `dequeue` of `src/task_queue.rs`: a task, the empty signal
`None` once every sender is gone, or a suspension awaiting a send. -/
inductive DeqOutcome : Type
  | got (t : Task) : DeqOutcome
  | emptyClosed : DeqOutcome
  | suspended : DeqOutcome
deriving DecidableEq, Repr

/-- `TaskQueue::dequeue` from `src/task_queue.rs`: `recv` pops the FIFO
head when the buffer is not empty (then `len -= 1`); on an empty buffer
it returns `None` once the senders are gone (after `shutdown` has taken
the sender and joined the delay worker holding the last clone) and
otherwise suspends. -/
def OldTaskQueue.dequeue (q : OldTaskQueue) : DeqOutcome × OldTaskQueue :=
  match q.ready with
  | t :: rest => (DeqOutcome.got t, { q with ready := rest, len := q.len - 1 })
  | [] =>
    if !q.sender then (DeqOutcome.emptyClosed, q)
    else (DeqOutcome.suspended, q)

/-- `TaskQueue::shutdown` from `src/task_queue.rs`: notify the delay
worker, take the sender out of the mutex (releasing it), and join the
delay worker (which drops the last sender clone). Tasks already in the
ready channel are untouched. -/
def OldTaskQueue.shutdown (q : OldTaskQueue) : OldTaskQueue :=
  { q with sender := false, sender_locked := false }

/-- Apply `OldTaskQueue.dequeue` `n` times, keeping only the state. -/
def old_dequeueN (q : OldTaskQueue) : Nat → OldTaskQueue
  | 0 => q
  | n + 1 => old_dequeueN (q.dequeue).2 n

/-! ## Concrete states used as test inputs -/

/-- A concrete scheduler-generation task. -/
def tPend : STask := { id := "t0", status := TaskStatus.Pending, attempts := 0, retry_policy := none }

/-- A concrete `src/task.rs` task in its initial state. -/
def tOld : Task :=
  { id := "t", job_id := "j", payload := [], status := TaskStatus.Pending,
    retry_policy := { max_retries := 3, backoff_ms := 100 }, created_at := 0, updated_at := 0 }

/-- A `queue.rs` queue whose scheduler command channel is at its `1024`
capacity (the scheduling actor has not kept up with submissions). -/
def qCmdFull : TaskQueue :=
  { TaskQueue.new 5 with cmd := List.replicate 1024 SchedulerCommand.Shutdown }

/-- A live `task_queue.rs` queue whose sender mutex is momentarily held by
a concurrent operation (for instance a blocking `enqueue` suspended on a
full channel, which holds the lock across its `send(..).await`). -/
def qLockHeld : OldTaskQueue :=
  { sender := true, sender_locked := true, ready := [], capacity := 1, len := 0 }

/-- `tOld` after a worker has started it (`Running`, ready to fail). -/
def tRunning : Task := { tOld with status := TaskStatus.Running }

/-- `tOld` with `max_retries = 2`, one retryable failure in (status
`Failed{attempt = 1}`): one more attempt fits the budget (`1 + 1 ≤ 2`). -/
def tFailedOnce : Task :=
  { tOld with status := TaskStatus.Failed 1 "boom",
              retry_policy := { max_retries := 2, backoff_ms := 100 },
              updated_at := 1 }

/-- A `src/task.rs` task sitting at `Failed{attempt = 5}` under a policy
with `max_retries = 3` (its budget is exhausted). -/
def tExhausted : Task :=
  { tOld with status := TaskStatus.Failed 5 "x" }

/-- A scheduler-generation exponential retry policy: `base = 1s`,
`factor = 2`, `max_delay = 5s` (nanoseconds). -/
def expPolicy : SRetryPolicy :=
  { max_retries := 3, strategy := BackoffStrategy.Exponential 1000000000 2 5000000000 }

/-! # Theorems -/

/-- C1: the claim fails on the code. A task with `max_retries = 2` whose
first retryable failure produced `Failed{attempt = 1}` has budget for a
second attempt (`1 + 1 ≤ 2`), yet `Task::fail_retry` rejects the second
retryable failure with `IllegalTransition{from: "Failed", to: "Failed"}`
and leaves the task unchanged, because after passing the retry-budget
check it delegates to `TaskStatus::mark_as_failed`, which only accepts a
`Running` source status. The task therefore never reaches
`Failed{attempt = 2}`, contradicting both the §4.1 table row
`Failed{a} → Failed{a+1}` and the §8 retry law
`Failed{1} → Failed{2} → FailedPermanent`. -/
theorem C1_second_retryable_failure_rejected :
    (tRunning.fail_retry "boom" 1
      = (none, { tRunning with status := TaskStatus.Failed 1 "boom", updated_at := 1 })) ∧
    (tFailedOnce.fail_retry "again" 2
      = (some (TaskTransitionError.Illegal "Failed" "Failed"), tFailedOnce)) := by
  exact ⟨rfl, rfl⟩

/-- C10: `RetryPolicy::can_retry attempt` holds exactly when
`attempt < max_retries`; `Task::fail_retry` returns
`RetryLimitedExceeded` only when the attempt count it computed for the
new failure strictly exceeds `max_retries`; a status `Failed` at exactly
`max_retries` is a legal result of `mark_as_failed` from `Running`, and
at that boundary `can_retry max_retries` is `false`, so such a task is
judged non-retryable. -/
theorem C10_can_retry_strict_versus_fail_retry :
    (∀ (p : RetryPolicy) (a : Nat), p.can_retry a = true ↔ a < p.max_retries) ∧
    (∀ (t : Task) (e : String) (now : Nat),
        (t.fail_retry e now).1 = some TaskTransitionError.RetryLimitedExceeded →
        ∃ k, fail_retry_attempt t.status = some k ∧ k > t.retry_policy.max_retries) ∧
    (∀ (p : RetryPolicy) (e : String),
        TaskStatus.Running.mark_as_failed p.max_retries e
            = Except.ok (TaskStatus.Failed p.max_retries e) ∧
        p.can_retry p.max_retries = false) := by
  refine ⟨?_, ?_, ?_⟩
  · intro p a
    simp [RetryPolicy.can_retry]
  · intro t e now h
    rcases t with ⟨id, job, pl, st, pol, ca, ua⟩
    cases st with
    | Pending => simp [Task.fail_retry, fail_retry_attempt] at h
    | Assigned => simp [Task.fail_retry, fail_retry_attempt] at h
    | Completed => simp [Task.fail_retry, fail_retry_attempt] at h
    | FailedPermanent err => simp [Task.fail_retry, fail_retry_attempt] at h
    | Running =>
      simp only [Task.fail_retry, fail_retry_attempt] at h
      split at h
      · exact ⟨1, rfl, by assumption⟩
      · simp [TaskStatus.mark_as_failed] at h
    | Failed a err =>
      simp only [Task.fail_retry, fail_retry_attempt] at h
      split at h
      · exact ⟨(a + 1) % 4294967296, rfl, by assumption⟩
      · simp [TaskStatus.mark_as_failed] at h
  · intro p e
    exact ⟨rfl, by simp [RetryPolicy.can_retry]⟩

/-- Witness for C10 at concrete inputs: a policy with `max_retries = 3`
permits attempt `2`; a task in `Failed{attempt = 5}` under that policy is
rejected by `fail_retry` with a computed attempt count above the budget;
and `can_retry 3` is `false` at the boundary. -/
theorem C10_can_retry_strict_versus_fail_retry_witness :
    ((RetryPolicy.mk 3 100).can_retry 2 = true) ∧
    (∃ k, fail_retry_attempt (TaskStatus.Failed 5 "x") = some k ∧ k > 3) ∧
    ((RetryPolicy.mk 3 100).can_retry 3 = false) := by
  refine ⟨?_, ?_, ?_⟩
  · exact (C10_can_retry_strict_versus_fail_retry.1 (RetryPolicy.mk 3 100) 2).mpr (by decide)
  · exact C10_can_retry_strict_versus_fail_retry.2.1 tExhausted "e" 0 (by decide)
  · exact (C10_can_retry_strict_versus_fail_retry.2.2 (RetryPolicy.mk 3 100) "e").2

set_option maxRecDepth 8000 in
/-- C3: for every attempt count and every `Exponential` strategy,
`compute_backoff` returns
`min(base.saturating_mul(factor.saturating_pow(attempt)), max_delay)`,
never exceeding `max_delay` for any attempt count; with `base = 1s`,
`factor = 2`, `max_delay = 5s`, attempts `0,1,2,3` yield `1s,2s,4s,5s`,
and even attempt `1000` stays clamped at `5s` instead of overflowing. -/
theorem C3_exponential_backoff_saturates_and_clamps :
    (∀ (id : String) (st : TaskStatus) (a m base factor maxd : Nat),
        compute_backoff
            (STask.mk id st a
              (some (SRetryPolicy.mk m (BackoffStrategy.Exponential base factor maxd))))
          = some (min (duration_saturating_mul base (saturating_pow factor a)) maxd)) ∧
    (∀ (id : String) (st : TaskStatus) (a m base factor maxd : Nat),
        ∃ d, compute_backoff
              (STask.mk id st a
                (some (SRetryPolicy.mk m (BackoffStrategy.Exponential base factor maxd))))
            = some d ∧ d ≤ maxd) ∧
    (∀ (a : Nat) (d : Nat), (a, d) ∈ [(0, 1000000000), (1, 2000000000), (2, 4000000000),
          (3, 5000000000), (1000, 5000000000)] →
        compute_backoff (STask.mk "t" TaskStatus.Pending a (some expPolicy)) = some d) := by
  refine ⟨?_, ?_, ?_⟩
  · intro id st a m base factor maxd
    rfl
  · intro id st a m base factor maxd
    exact ⟨_, rfl, Nat.min_le_right _ _⟩
  · intro a d ha
    simp only [List.mem_cons, List.not_mem_nil, or_false, Prod.mk.injEq] at ha
    rcases ha with ⟨ha, hd⟩ | ⟨ha, hd⟩ | ⟨ha, hd⟩ | ⟨ha, hd⟩ | ⟨ha, hd⟩ <;>
      subst ha <;> subst hd <;> decide

/-- C2: for every `(status, event)` pair outside the §4.1 edge set, the
pure transition function returns `IllegalTransition` naming the
`(from, to)` pair, and the `Task` method for the same event returns the
same error and leaves every field of the task unchanged. -/
theorem C2_non_edges_rejected_unchanged (s : TaskStatus) (ev : TEvent)
    (attempt : Nat) (err : String) (h : inTable s ev = false) :
    statusApply s ev attempt err
        = Except.error (TaskTransitionError.Illegal s.as_str (statusTarget ev)) ∧
    ∀ (t : Task) (now : Nat), t.status = s →
      taskApply t ev err now
          = (some (TaskTransitionError.Illegal s.as_str (taskTarget ev)), t) := by
  cases ev <;> cases s <;>
    simp_all [inTable, statusApply, taskApply, statusTarget, taskTarget,
      TaskStatus.mark_as_assigned, TaskStatus.mark_as_running,
      TaskStatus.mark_as_completed, TaskStatus.mark_as_failed,
      TaskStatus.mark_as_failed_permanent, TaskStatus.as_str,
      Task.assign, Task.start, Task.complete, Task.fail_retry,
      Task.fail_permanent, fail_retry_attempt]

/-- Witness for C2 at a concrete non-edge: `assign` on a `Completed`
status is rejected with `Illegal{from: "Completed", to: "Assigned"}` and
`Task::assign` leaves the task untouched. -/
theorem C2_non_edges_rejected_unchanged_witness :
    statusApply TaskStatus.Completed TEvent.assign 0 "e"
        = Except.error (TaskTransitionError.Illegal "Completed" "Assigned") ∧
    taskApply { tOld with status := TaskStatus.Completed } TEvent.assign "e" 7
        = (some (TaskTransitionError.Illegal "Completed" "Assigned"),
           { tOld with status := TaskStatus.Completed }) := by
  have h := C2_non_edges_rejected_unchanged TaskStatus.Completed TEvent.assign 0 "e" (by decide)
  exact ⟨h.1, h.2 { tOld with status := TaskStatus.Completed } 7 rfl⟩

/-- C4: `handle_execution_event` on `RetryableFailure(task, error)`
advances the failed-attempt count by one; when the policy still permits a
retry it computes the backoff delay (which always exists under a policy)
and reinserts the task into the delay structure without dropping it; when
the policy forbids a retry, or the task has no policy, the task is
transitioned to `FailedPermanent` and dropped, the delay structure left
unchanged — the exhausted-retry case is converted internally (the
function has no error outcome at all). -/
theorem C4_retryable_failure_retries_or_goes_permanent (task : STask) (error : String)
    (dq : List (STask × Nat)) :
    ((task.mark_retryable_failure error).attempts = task.attempts + 1) ∧
    (∀ p, task.retry_policy = some p → p.can_retry (task.attempts + 1) = true →
        ∃ d, compute_backoff (task.mark_retryable_failure error) = some d ∧
          handle_execution_event (ExecutionEvent.RetryableFailure task error) dq
              = (dq ++ [(task.mark_retryable_failure error, d)], none)) ∧
    (∀ p, task.retry_policy = some p → p.can_retry (task.attempts + 1) = false →
        handle_execution_event (ExecutionEvent.RetryableFailure task error) dq
            = (dq, some ((task.mark_retryable_failure error).mark_permanent_failure
                "retry limit exceeded"))) ∧
    (task.retry_policy = none →
        handle_execution_event (ExecutionEvent.RetryableFailure task error) dq
            = (dq, some ((task.mark_retryable_failure error).mark_permanent_failure
                "retry limit exceeded"))) ∧
    (∀ t2, ((t2 : STask).mark_permanent_failure "retry limit exceeded").status
        = TaskStatus.FailedPermanent "retry limit exceeded") := by
  refine ⟨rfl, ?_, ?_, ?_, fun t2 => rfl⟩
  · rcases task with ⟨tid, tst, tat, tpol⟩
    intro p hp hcr
    subst hp
    rcases p with ⟨m, str⟩
    cases str with
    | Fixed d =>
      exact ⟨d, rfl, by
        simp [handle_execution_event, STask.mark_retryable_failure, compute_backoff, hcr]⟩
    | Exponential b f M =>
      exact ⟨_, rfl, by
        simp [handle_execution_event, STask.mark_retryable_failure, compute_backoff, hcr]⟩
  · rcases task with ⟨tid, tst, tat, tpol⟩
    intro p hp hcr
    subst hp
    simp [handle_execution_event, STask.mark_retryable_failure, hcr]
  · rcases task with ⟨tid, tst, tat, tpol⟩
    intro hp
    subst hp
    simp [handle_execution_event, STask.mark_retryable_failure]

/-- Witness for C4 at concrete inputs: a `Running` task with
`attempts = 0` under `expPolicy` (`max_retries = 3`) is reinserted with
its computed backoff after a retryable failure, while the same task at
`attempts = 3` is transitioned to `FailedPermanent` and dropped. -/
theorem C4_retryable_failure_retries_or_goes_permanent_witness :
    (∃ d, compute_backoff ((STask.mk "a" TaskStatus.Running 0 (some expPolicy)).mark_retryable_failure "e") = some d ∧
      handle_execution_event
          (ExecutionEvent.RetryableFailure (STask.mk "a" TaskStatus.Running 0 (some expPolicy)) "e") []
        = ([(((STask.mk "a" TaskStatus.Running 0 (some expPolicy)).mark_retryable_failure "e"), d)], none)) ∧
    (handle_execution_event
          (ExecutionEvent.RetryableFailure (STask.mk "b" TaskStatus.Running 3 (some expPolicy)) "e") []
        = ([], some (((STask.mk "b" TaskStatus.Running 3 (some expPolicy)).mark_retryable_failure "e").mark_permanent_failure "retry limit exceeded"))) := by
  constructor
  · exact (C4_retryable_failure_retries_or_goes_permanent
      (STask.mk "a" TaskStatus.Running 0 (some expPolicy)) "e" []).2.1 expPolicy rfl (by decide)
  · exact (C4_retryable_failure_retries_or_goes_permanent
      (STask.mk "b" TaskStatus.Running 3 (some expPolicy)) "e" []).2.2.1 expPolicy rfl (by decide)

/-- C5 counterexample: when the scheduler command channel already holds
its full `1024` commands, the discarded `try_send` in `enqueue_delayed` fails
and the queue state is completely unchanged — no `Schedule` command for
the task exists anywhere, so the command never reaches the scheduling
actor and the task is silently dropped, although no shutdown happened. -/
theorem C5_counterexample_full_command_channel_drops_task :
    qCmdFull.enqueue_delayed tPend 7 = qCmdFull ∧
    SchedulerCommand.Schedule tPend 7 ∉ (qCmdFull.enqueue_delayed tPend 7).cmd ∧
    qCmdFull.cmd_closed = false := by
  have hcmd : qCmdFull.cmd = List.replicate 1024 SchedulerCommand.Shutdown := rfl
  have hlen : qCmdFull.cmd.length = 1024 := by
    rw [hcmd, List.length_replicate]
  have hcap : qCmdFull.cmd_capacity = 1024 := rfl
  have hcond : ¬(qCmdFull.cmd_closed = false ∧ qCmdFull.cmd.length < qCmdFull.cmd_capacity) := by
    rintro ⟨-, hlt⟩
    rw [hlen, hcap] at hlt
    exact absurd hlt (by decide)
  have h : qCmdFull.enqueue_delayed tPend 7 = qCmdFull := by
    simp only [TaskQueue.enqueue_delayed]
    rw [if_neg hcond]
  refine ⟨h, ?_, rfl⟩
  rw [h, hcmd, List.mem_replicate]
  rintro ⟨-, heq⟩
  exact SchedulerCommand.noConfusion heq

/-- C5 (amended): provided the scheduler command channel is open and not
full, `enqueue_delayed(task, delay)` appends exactly one
`Schedule` command carrying the task and delay to the command
channel of the scheduling actor, touching neither the ready channel nor the length counter (the
task is in exactly one place), and a running scheduling actor processing
that command inserts the task into its delay structure. -/
theorem C5_enqueue_delayed_reaches_actor (q : TaskQueue) (t : STask) (d : Nat)
    (hopen : q.cmd_closed = false) (hroom : q.cmd.length < q.cmd_capacity) :
    (q.enqueue_delayed t d).cmd = q.cmd ++ [SchedulerCommand.Schedule t d] ∧
    (q.enqueue_delayed t d).ready = q.ready ∧
    (q.enqueue_delayed t d).len = q.len ∧
    ∀ (dq : List (STask × Nat)) (del : List STask),
      sched_step (SchedState.mk dq del false) (SchedEvent.cmd (SchedulerCommand.Schedule t d))
          = SchedState.mk (dq ++ [(t, d)]) del false := by
  refine ⟨?_, ?_, ?_, ?_⟩
  · simp [TaskQueue.enqueue_delayed, hopen, hroom]
  · simp [TaskQueue.enqueue_delayed, hopen, hroom]
  · simp [TaskQueue.enqueue_delayed, hopen, hroom]
  · intro dq del
    simp [sched_step]

/-- Witness for C5 (amended) at concrete inputs: on a fresh queue the
`Schedule` command is appended and the actor inserts the task. -/
theorem C5_enqueue_delayed_reaches_actor_witness :
    ((TaskQueue.new 5).enqueue_delayed tPend 7).cmd = [SchedulerCommand.Schedule tPend 7] ∧
    sched_step (SchedState.mk [] [] false) (SchedEvent.cmd (SchedulerCommand.Schedule tPend 7))
        = SchedState.mk [(tPend, 7)] [] false := by
  have h := C5_enqueue_delayed_reaches_actor (TaskQueue.new 5) tPend 7 rfl (by decide)
  exact ⟨h.1, h.2.2.2 [] []⟩

/-- Enqueueing a task list succeeds whenever it fits in the remaining
ready-channel capacity, appending the tasks in submission order. -/
theorem enqueue_list_appends (ts : List STask) (q : TaskQueue)
    (h : q.ready.length + ts.length ≤ q.capacity) :
    ∃ q2, enqueue_list q ts = some q2 ∧ q2.ready = q.ready ++ ts ∧
      q2.capacity = q.capacity := by
  induction ts generalizing q with
  | nil => exact ⟨q, rfl, by simp, rfl⟩
  | cons t ts ih =>
    have hlt : q.ready.length < q.capacity := by
      simp only [List.length_cons] at h
      omega
    have hstep : q.enqueue t
        = (SendOutcome.ok, { q with ready := q.ready ++ [t], len := q.len + 1 }) := by
      simp [TaskQueue.enqueue, hlt]
    obtain ⟨q2, h1, h2, h3⟩ := ih { q with ready := q.ready ++ [t], len := q.len + 1 }
      (by simp only [List.length_cons] at h; simp; omega)
    refine ⟨q2, ?_, ?_, h3⟩
    · simp [enqueue_list, hstep, h1]
    · simp [h2]

/-- Dequeueing `n ≤ length` times returns the first `n` buffered tasks in
FIFO order. -/
theorem dequeue_list_takes (n : Nat) (q : TaskQueue) (h : n ≤ q.ready.length) :
    (dequeue_list q n).1 = q.ready.take n := by
  induction n generalizing q with
  | zero => simp [dequeue_list]
  | succ n ih =>
    rcases q with ⟨rdy, cap, cmd, cmdcap, cmdcl, len⟩
    cases rdy with
    | nil => simp at h
    | cons t rest =>
      simp only [dequeue_list, TaskQueue.dequeue, List.take_succ_cons]
      simp only [List.length_cons] at h
      have := ih (TaskQueue.mk rest cap cmd cmdcap cmdcl (len - 1)) (by simpa using h)
      simpa using this

/-- C6: for every sequence of immediate `enqueue` calls (no delayed tasks
interleaved) that the ready channel can hold, every send completes and
successive `dequeue` calls return the tasks in exactly the submission
order. -/
theorem C6_fifo_order (c : Nat) (ts : List STask) (h : ts.length ≤ c) :
    ∃ q2, enqueue_list (TaskQueue.new c) ts = some q2 ∧
      (dequeue_list q2 ts.length).1 = ts := by
  obtain ⟨q2, h1, h2, h3⟩ := enqueue_list_appends ts (TaskQueue.new c)
    (by simpa [TaskQueue.new] using h)
  refine ⟨q2, h1, ?_⟩
  rw [dequeue_list_takes]
  · rw [h2]
    simp [TaskQueue.new]
  · rw [h2]
    simp [TaskQueue.new]

/-- Witness for C6 at a concrete input: two tasks enqueued into a
capacity-2 queue dequeue in submission order. -/
theorem C6_fifo_order_witness :
    ∃ q2, enqueue_list (TaskQueue.new 2) [tPend, STask.mk "t1" TaskStatus.Pending 0 none]
        = some q2 ∧
      (dequeue_list q2 2).1 = [tPend, STask.mk "t1" TaskStatus.Pending 0 none] := by
  exact C6_fifo_order 2 [tPend, STask.mk "t1" TaskStatus.Pending 0 none] (by decide)

/-- C7 counterexample: on a live queue (shutdown has not begun, the
sender is present) with an empty ready channel of capacity `1`, a
concurrently held sender mutex makes `try_enqueue` return `Closed`:
`self.sender.try_lock().ok()` is `None` while the lock is held and
`ok_or(QueueError::Closed)` maps that to `Closed` — so `Closed` is
returned although shutdown has not begun, and `Ok` is not returned
although the channel is below capacity. -/
theorem C7_counterexample_locked_sender_reports_closed :
    qLockHeld.try_enqueue tOld = (some QueueError.Closed, qLockHeld) ∧
    qLockHeld.shutdown_begun = false ∧
    qLockHeld.ready.length < qLockHeld.capacity := by
  decide

/-- C7 (amended): `try_enqueue` never suspends (it is a total function of
the state); when the sender mutex is not concurrently held and shutdown
has not begun, it returns `Full` exactly when the bounded ready channel
already holds `capacity` tasks and `Ok` (appending the task) otherwise,
and it never returns `Closed`; `Closed` is returned exactly when
shutdown has begun or the sender mutex is concurrently held. -/
theorem C7_try_enqueue_full_iff_at_capacity (q : OldTaskQueue) (t : Task)
    (hlk : q.sender_locked = false) :
    (q.shutdown_begun = false →
      (((q.try_enqueue t).1 = some QueueError.Full) ↔ q.capacity ≤ q.ready.length) ∧
      (((q.try_enqueue t).1 = none) ↔ q.ready.length < q.capacity) ∧
      ((q.try_enqueue t).1 = none →
        (q.try_enqueue t).2.ready = q.ready ++ [t]) ∧
      ((q.try_enqueue t).1 ≠ some QueueError.Closed)) ∧
    (((q.try_enqueue t).1 = some QueueError.Closed) ↔
      (q.shutdown_begun = true ∨ q.sender_locked = true)) ∧
    (((q.try_enqueue t).1 = some QueueError.Full) → (q.try_enqueue t).2 = q) := by
  rcases q with ⟨snd, lk, rdy, cap, len⟩
  simp only at hlk
  subst hlk
  cases snd with
  | false =>
    refine ⟨fun hsb => absurd hsb (by simp [OldTaskQueue.shutdown_begun]), ?_, ?_⟩
    · simp [OldTaskQueue.try_enqueue, OldTaskQueue.shutdown_begun]
    · simp [OldTaskQueue.try_enqueue]
  | true =>
    by_cases hc : rdy.length < cap
    · refine ⟨fun hsb => ⟨?_, ?_, ?_, ?_⟩, ?_, ?_⟩ <;>
        simp [OldTaskQueue.try_enqueue, OldTaskQueue.shutdown_begun, hc]
    · refine ⟨fun hsb => ⟨?_, ?_, ?_, ?_⟩, ?_, ?_⟩ <;>
        simp [OldTaskQueue.try_enqueue, OldTaskQueue.shutdown_begun, hc]
      all_goals omega

/-- Witness for C7 (amended) at a concrete input: starting from a fresh
capacity-1 queue, one successful `try_enqueue` fills the channel and the
next `try_enqueue` returns `Full`, leaving the state unchanged. -/
theorem C7_try_enqueue_full_iff_at_capacity_witness :
    ((((OldTaskQueue.new 1).try_enqueue tOld).2).try_enqueue tOld).1 = some QueueError.Full ∧
    ((((OldTaskQueue.new 1).try_enqueue tOld).2).try_enqueue tOld).2
        = ((OldTaskQueue.new 1).try_enqueue tOld).2 := by
  have h := C7_try_enqueue_full_iff_at_capacity (((OldTaskQueue.new 1).try_enqueue tOld).2)
    tOld rfl
  have hfull : ((((OldTaskQueue.new 1).try_enqueue tOld).2).try_enqueue tOld).1
      = some QueueError.Full := (h.1 rfl).1.mpr (by decide)
  exact ⟨hfull, h.2.2 hfull⟩

/-- After shutdown, draining as many tasks as the ready buffer holds
leaves an empty buffer with the senders still gone. -/
theorem old_dequeueN_drains (l : List Task) (q : OldTaskQueue)
    (hr : q.ready = l) (hs : q.sender = false) :
    (old_dequeueN q l.length).ready = [] ∧ (old_dequeueN q l.length).sender = false := by
  induction l generalizing q with
  | nil => simpa [old_dequeueN, hr] using hs
  | cons t rest ih =>
    have hstep : (q.dequeue).2 = { q with ready := rest, len := q.len - 1 } := by
      simp [OldTaskQueue.dequeue, hr]
    simp only [List.length_cons, old_dequeueN, hstep]
    exact ih _ rfl hs

/-- C8: after `shutdown()` has returned, every subsequent `enqueue` fails
with `Closed` without touching the state; `enqueue` reports `Closed` only
when shutdown has begun (any other outcome on a live queue is a
completed or suspended send); the ready buffer survives shutdown; and
after draining the buffered tasks, the next `dequeue` returns the empty
signal rather than suspending. -/
theorem C8_shutdown_closes_enqueue_dequeue_terminates (q : OldTaskQueue) (t : Task) :
    ((q.shutdown).enqueue t = (EnqOutcome.err QueueError.Closed, q.shutdown)) ∧
    ((q.shutdown).shutdown_begun = true) ∧
    (∀ (p : OldTaskQueue) (u : Task),
        (p.enqueue u).1 = EnqOutcome.err QueueError.Closed → p.shutdown_begun = true) ∧
    ((q.shutdown).ready = q.ready) ∧
    ((old_dequeueN q.shutdown q.ready.length).dequeue
        = (DeqOutcome.emptyClosed, old_dequeueN q.shutdown q.ready.length)) := by
  refine ⟨?_, ?_, ?_, rfl, ?_⟩
  · simp [OldTaskQueue.enqueue, OldTaskQueue.shutdown]
  · simp [OldTaskQueue.shutdown_begun, OldTaskQueue.shutdown]
  · intro p u h
    rcases p with ⟨snd, lk, rdy, cap, len⟩
    cases snd with
    | false => rfl
    | true =>
      by_cases hc : rdy.length < cap <;>
        simp [OldTaskQueue.enqueue, hc] at h
  · obtain ⟨he, hs⟩ := old_dequeueN_drains q.ready q.shutdown rfl rfl
    rcases hdn : old_dequeueN q.shutdown q.ready.length with ⟨snd, lk, rdy, cap, len⟩
    rw [hdn] at he hs
    simp only at he hs
    subst he
    subst hs
    rfl

/-- Witness for C8 at a concrete input: shutting down a fresh capacity-2
queue makes `enqueue` fail with `Closed`, and an `enqueue` observed to
fail with `Closed` implies shutdown has begun on that state. -/
theorem C8_shutdown_closes_enqueue_dequeue_terminates_witness :
    ((OldTaskQueue.new 2).shutdown.enqueue tOld
        = (EnqOutcome.err QueueError.Closed, (OldTaskQueue.new 2).shutdown)) ∧
    ((OldTaskQueue.mk false false [] 2 0).shutdown_begun = true) ∧
    ((old_dequeueN (OldTaskQueue.new 2).shutdown 0).dequeue
        = (DeqOutcome.emptyClosed, old_dequeueN (OldTaskQueue.new 2).shutdown 0)) := by
  have h := C8_shutdown_closes_enqueue_dequeue_terminates (OldTaskQueue.new 2) tOld
  refine ⟨h.1, ?_, h.2.2.2.2⟩
  exact h.2.2.1 (OldTaskQueue.mk false false [] 2 0) tOld (by decide)

/-- C9: processing a `Shutdown` command makes `scheduler_loop` exit with
its delay structure and delivered-task history untouched; once stopped it
processes no further commands or expiries whatsoever, so every task still
pending in the delay structure at that moment is never delivered to the
ready channel; tasks already sitting in the ready channel are untouched
by the scheduler and remain retrievable through the facade `dequeue`. -/
theorem C9_shutdown_stops_scheduler_abandons_pending :
    (∀ (dq : List (STask × Nat)) (del : List STask),
        sched_step (SchedState.mk dq del false) (SchedEvent.cmd SchedulerCommand.Shutdown)
            = SchedState.mk dq del true) ∧
    (∀ (dq : List (STask × Nat)) (del : List STask) (evs : List SchedEvent),
        sched_run (SchedState.mk dq del true) evs = SchedState.mk dq del true) ∧
    (∀ (q : TaskQueue) (t : STask) (rest : List STask),
        TaskQueue.dequeue { q with ready := t :: rest }
            = (some t, { q with ready := rest, len := q.len - 1 })) := by
  refine ⟨?_, ?_, ?_⟩
  · intro dq del
    simp [sched_step]
  · intro dq del evs
    induction evs with
    | nil => rfl
    | cons e es ih => simpa [sched_run, sched_step] using ih
  · intro q t rest
    rfl

end Nimbu
